import Mathlib

/-!
Verification of the brochure generator (src/week1/brochure.py).

The program is sequential orchestration around two external collaborators:
the scraper module (page-text and link-list fetching) and a chat-completion
model endpoint.  We embed it shallowly: the collaborators become an `Env` of
functions that may fail, Python exceptions become an `Except` layer, and the
externally observable effects (network calls, stdout writes) are recorded in
an event trace, so that temporal claims ("no link page was fetched") are
statements about the trace.  Python's `json.loads` is modelled by an
executable recursive-descent JSON reader over code points; JSON numbers are
kept as a decimal mantissa with a power-of-ten exponent, so integer literals
are represented exactly.  Python dict semantics (insertion order, duplicate
keys collapsed to the last value) are reproduced in the object representation.
-/

set_option maxHeartbeats 1000000
set_option maxRecDepth 100000

namespace Brochure

/-- JSON values as produced by Python's json module.  `num m e` denotes the
decimal literal m * 10 ^ e; an integer literal parses to `num m 0`.  `nan`
and `inf` are the NaN, Infinity and -Infinity constants that json.loads
accepts by default (parse_constant), denoting the corresponding floats.
Objects keep their fields in insertion order with duplicate keys collapsed
to the last occurrence, as a Python dict does. -/
inductive Json where
  | null
  | bool (b : Bool)
  | num (m : Int) (e : Int)
  | nan
  | inf (neg : Bool)
  | str (s : String)
  | arr (elems : List Json)
  | obj (fields : List (String × Json))

/-- Whitespace skipping of the JSON grammar (space, tab, newline, return). -/
def jsonSkipWs : List Char → List Char
  | [] => []
  | c :: cs =>
    if c = ' ' ∨ c = '\t' ∨ c = '\n' ∨ c = '\r' then jsonSkipWs cs else c :: cs

/-- Value of a hexadecimal digit, if any. -/
def hexVal (c : Char) : Option Nat :=
  if '0' ≤ c ∧ c ≤ '9' then some (c.toNat - '0'.toNat)
  else if 'a' ≤ c ∧ c ≤ 'f' then some (c.toNat - 'a'.toNat + 10)
  else if 'A' ≤ c ∧ c ≤ 'F' then some (c.toNat - 'A'.toNat + 10)
  else none

/-- Single-character JSON string escapes (everything except the u form). -/
def escChar (c : Char) : Option Char :=
  if c = '"' then some '"'
  else if c = '\\' then some '\\'
  else if c = '/' then some '/'
  else if c = 'b' then some '\x08'
  else if c = 'f' then some '\x0c'
  else if c = 'n' then some '\n'
  else if c = 'r' then some '\r'
  else if c = 't' then some '\t'
  else none

/-- Body of a JSON string literal, after the opening quote: the decoded
characters and the remainder after the closing quote.  Raw control
characters are rejected, as the json module does in strict mode.  A high
surrogate escape followed by a low surrogate escape is combined into the
denoted code point, as json.loads does; a lone surrogate, which Python
keeps in its str but which no Lean Char can hold, is rendered as the
replacement character U+FFFD.  Fuelled: every step consumes at least one
input character, so call sites pass the input length plus one. -/
def parseJsonStringBody : Nat → List Char → Option (List Char × List Char)
  | 0, _ => none
  | _ + 1, [] => none
  | fuel + 1, '\\' :: 'u' :: a :: b :: c :: d :: cs =>
    match hexVal a, hexVal b, hexVal c, hexVal d with
    | some x, some y, some z, some w =>
      let n1 := ((x * 16 + y) * 16 + z) * 16 + w
      if 0xD800 ≤ n1 ∧ n1 ≤ 0xDBFF then
        match cs with
        | '\\' :: 'u' :: a2 :: b2 :: c2 :: d2 :: cs2 =>
          (match hexVal a2, hexVal b2, hexVal c2, hexVal d2 with
           | some x2, some y2, some z2, some w2 =>
             let n2 := ((x2 * 16 + y2) * 16 + z2) * 16 + w2
             if 0xDC00 ≤ n2 ∧ n2 ≤ 0xDFFF then
               match parseJsonStringBody fuel cs2 with
               | some (out, rem) =>
                 some (Char.ofNat (0x10000 + (n1 - 0xD800) * 0x400 + (n2 - 0xDC00)) :: out,
                   rem)
               | none => none
             else
               match parseJsonStringBody fuel cs with
               | some (out, rem) => some (Char.ofNat 0xFFFD :: out, rem)
               | none => none
           | _, _, _, _ =>
             match parseJsonStringBody fuel cs with
             | some (out, rem) => some (Char.ofNat 0xFFFD :: out, rem)
             | none => none)
        | _ =>
          match parseJsonStringBody fuel cs with
          | some (out, rem) => some (Char.ofNat 0xFFFD :: out, rem)
          | none => none
      else if 0xDC00 ≤ n1 ∧ n1 ≤ 0xDFFF then
        match parseJsonStringBody fuel cs with
        | some (out, rem) => some (Char.ofNat 0xFFFD :: out, rem)
        | none => none
      else
        match parseJsonStringBody fuel cs with
        | some (out, rem) => some (Char.ofNat n1 :: out, rem)
        | none => none
    | _, _, _, _ => none
  | fuel + 1, '\\' :: e :: cs =>
    match escChar e, parseJsonStringBody fuel cs with
    | some ch, some (out, rem) => some (ch :: out, rem)
    | _, _ => none
  | fuel + 1, c :: cs =>
    if c = '"' then some ([], cs)
    else if c = '\\' then none
    else if c.toNat < 32 then none
    else
      match parseJsonStringBody fuel cs with
      | some (out, rem) => some (c :: out, rem)
      | none => none

/-- Longest digit run at the head of the input. -/
def takeDigits : List Char → List Char × List Char
  | [] => ([], [])
  | c :: cs =>
    if c.isDigit then
      let (ds, rest) := takeDigits cs
      (c :: ds, rest)
    else ([], c :: cs)

/-- Numeric value of a digit run. -/
def digitsToNat (ds : List Char) : Nat :=
  ds.foldl (fun acc c => acc * 10 + (c.toNat - '0'.toNat)) 0

/-- Fractional part of a JSON number: its digits and the remainder.  A dot
not followed by a digit is a syntax error. -/
def parseFrac : List Char → Option (List Char × List Char)
  | '.' :: rest =>
    match takeDigits rest with
    | ([], _) => none
    | (ds, rem) => some (ds, rem)
  | cs => some ([], cs)

/-- Exponent part of a JSON number, as a signed power of ten. -/
def parseExpPart : List Char → Option (Int × List Char)
  | [] => some (0, [])
  | c :: rest =>
    if c = 'e' ∨ c = 'E' then
      match rest with
      | '-' :: r2 =>
        (match takeDigits r2 with
         | ([], _) => none
         | (ds, rem) => some (-(digitsToNat ds : Int), rem))
      | '+' :: r2 =>
        (match takeDigits r2 with
         | ([], _) => none
         | (ds, rem) => some ((digitsToNat ds : Int), rem))
      | r2 =>
        (match takeDigits r2 with
         | ([], _) => none
         | (ds, rem) => some ((digitsToNat ds : Int), rem))
    else some (0, c :: rest)

/-- Unsigned JSON number: mantissa, power-of-ten exponent and remainder.
Leading zeros are rejected, as in the JSON grammar. -/
def parseUnsignedNumber (cs : List Char) : Option (Nat × Int × List Char) :=
  match takeDigits cs with
  | ([], _) => none
  | (ds, cs2) =>
    if 1 < ds.length ∧ ds.headD 'x' = '0' then none
    else
      match parseFrac cs2 with
      | none => none
      | some (fds, cs3) =>
        match parseExpPart cs3 with
        | none => none
        | some (ex, cs4) =>
          some (digitsToNat (ds ++ fds), ex - (fds.length : Int), cs4)

/-- JSON number with optional sign, or one of the NaN, Infinity and
-Infinity constants that json.loads accepts by default. -/
def parseJsonNumber : List Char → Option (Json × List Char)
  | 'N' :: 'a' :: 'N' :: rest => some (Json.nan, rest)
  | 'I' :: 'n' :: 'f' :: 'i' :: 'n' :: 'i' :: 't' :: 'y' :: rest =>
    some (Json.inf false, rest)
  | '-' :: 'I' :: 'n' :: 'f' :: 'i' :: 'n' :: 'i' :: 't' :: 'y' :: rest =>
    some (Json.inf true, rest)
  | '-' :: cs =>
    match parseUnsignedNumber cs with
    | some (m, e, rem) => some (Json.num (-(m : Int)) e, rem)
    | none => none
  | cs =>
    match parseUnsignedNumber cs with
    | some (m, e, rem) => some (Json.num (m : Int) e, rem)
    | none => none

/-- Insertion of a field into an object under Python dict semantics: an
existing key keeps its position and gets the new value, a new key is
appended. -/
def insertField : List (String × Json) → String → Json → List (String × Json)
  | [], k, v => [(k, v)]
  | (k0, v0) :: rest, k, v =>
    if k0 = k then (k0, v) :: rest else (k0, v0) :: insertField rest k v

mutual

/-- JSON value, fuelled recursive descent. -/
def parseVal : Nat → List Char → Option (Json × List Char)
  | 0, _ => none
  | fuel + 1, cs =>
    match jsonSkipWs cs with
    | [] => none
    | c :: cs1 =>
      if c = '\x7b' then
        match jsonSkipWs cs1 with
        | '\x7d' :: rest => some (Json.obj [], rest)
        | cs2 =>
          match parseFields fuel cs2 [] with
          | some (fs, rest) => some (Json.obj fs, rest)
          | none => none
      else if c = '[' then
        match jsonSkipWs cs1 with
        | ']' :: rest => some (Json.arr [], rest)
        | cs2 =>
          match parseElems fuel cs2 with
          | some (es, rest) => some (Json.arr es, rest)
          | none => none
      else if c = '"' then
        match parseJsonStringBody (cs1.length + 1) cs1 with
        | some (body, rest) => some (Json.str (String.mk body), rest)
        | none => none
      else if c = 't' then
        match cs1 with
        | 'r' :: 'u' :: 'e' :: rest => some (Json.bool true, rest)
        | _ => none
      else if c = 'f' then
        match cs1 with
        | 'a' :: 'l' :: 's' :: 'e' :: rest => some (Json.bool false, rest)
        | _ => none
      else if c = 'n' then
        match cs1 with
        | 'u' :: 'l' :: 'l' :: rest => some (Json.null, rest)
        | _ => none
      else if c = 'N' ∨ c = 'I' ∨ c = '-' ∨ c.isDigit then parseJsonNumber (c :: cs1)
      else none

/-- Comma-separated array elements, consuming the closing bracket. -/
def parseElems : Nat → List Char → Option (List Json × List Char)
  | 0, _ => none
  | fuel + 1, cs =>
    match parseVal fuel cs with
    | none => none
    | some (j, rest) =>
      match jsonSkipWs rest with
      | ',' :: rest2 =>
        (match parseElems fuel rest2 with
         | some (js, rest3) => some (j :: js, rest3)
         | none => none)
      | ']' :: rest2 => some ([j], rest2)
      | _ => none

/-- Comma-separated object members, consuming the closing brace. -/
def parseFields :
    Nat → List Char → List (String × Json) → Option (List (String × Json) × List Char)
  | 0, _, _ => none
  | fuel + 1, cs, acc =>
    match jsonSkipWs cs with
    | '"' :: cs1 =>
      (match parseJsonStringBody (cs1.length + 1) cs1 with
       | none => none
       | some (key, cs2) =>
         match jsonSkipWs cs2 with
         | ':' :: cs3 =>
           (match parseVal fuel cs3 with
            | none => none
            | some (v, cs4) =>
              let acc2 := insertField acc (String.mk key) v
              match jsonSkipWs cs4 with
              | ',' :: cs5 => parseFields fuel cs5 acc2
              | '\x7d' :: cs5 => some (acc2, cs5)
              | _ => none)
         | _ => none)
    | _ => none

end

/-- Model of Python json.loads under its default settings: parse one JSON
document, allowing surrounding whitespace, rejecting trailing garbage,
accepting the NaN, Infinity and -Infinity constants.  The fuel bound is
generous: every recursive call of the reader consumes at least one character
or follows one consumed delimiter. -/
def Json.parse (s : String) : Option Json :=
  match parseVal (2 * s.data.length + 2) s.data with
  | some (j, rest) => if jsonSkipWs rest = [] then some j else none
  | none => none

/-- First field of an object with the given key.  Objects built by
`Json.parse` are duplicate-free, so this is Python dict lookup. -/
def lookupField : List (String × Json) → String → Option Json
  | [], _ => none
  | (k, v) :: rest, key => if k = key then some v else lookupField rest key

/-- Python subscript value[key] for a string key: a value only when the
subject is a dict holding the key; every other case raises in Python
(KeyError on a dict without the key, TypeError otherwise). -/
def Json.getItem : Json → String → Option Json
  | Json.obj fields, key => lookupField fields key
  | _, _ => none

/-- Python len(): defined for lists, dicts and strings; anything else raises
TypeError. -/
def Json.pyLen : Json → Option Nat
  | Json.arr es => some es.length
  | Json.obj fs => some fs.length
  | Json.str s => some s.length
  | _ => none

/-- Python iteration over a value: list elements, characters of a string
(as one-character strings), keys of a dict; anything else raises
TypeError. -/
def Json.pyElems : Json → Option (List Json)
  | Json.arr es => some es
  | Json.str s => some (s.data.map fun c => Json.str (String.mk [c]))
  | Json.obj fs => some (fs.map fun f => Json.str f.1)
  | _ => none

mutual

/-- Python str() of a JSON value, as interpolated by an f-string.  Strings
are rendered bare; the rendering of floats and of nested containers
approximates the CPython repr (the program only ever interpolates values the
model was asked to emit as strings). -/
def Json.pystr : Json → String
  | Json.null => "None"
  | Json.bool true => "True"
  | Json.bool false => "False"
  | Json.num m e => if e = 0 then toString m else toString m ++ "e" ++ toString e
  | Json.nan => "nan"
  | Json.inf true => "-inf"
  | Json.inf false => "inf"
  | Json.str s => s
  | Json.arr es => "[" ++ String.intercalate (", ") (pyreprList es) ++ "]"
  | Json.obj fs => "\x7b" ++ String.intercalate (", ") (pyreprFields fs) ++ "\x7d"

/-- Python repr() of a JSON value, used for elements nested in a container. -/
def Json.pyrepr : Json → String
  | Json.str s => "\x27" ++ s ++ "\x27"
  | Json.null => "None"
  | Json.bool true => "True"
  | Json.bool false => "False"
  | Json.num m e => if e = 0 then toString m else toString m ++ "e" ++ toString e
  | Json.nan => "nan"
  | Json.inf true => "-inf"
  | Json.inf false => "inf"
  | Json.arr es => "[" ++ String.intercalate (", ") (pyreprList es) ++ "]"
  | Json.obj fs => "\x7b" ++ String.intercalate (", ") (pyreprFields fs) ++ "\x7d"

/-- repr of each element of a list. -/
def pyreprList : List Json → List String
  | [] => []
  | j :: js => Json.pyrepr j :: pyreprList js

/-- repr of each field of a dict. -/
def pyreprFields : List (String × Json) → List String
  | [] => []
  | (k, v) :: fs => ("\x27" ++ k ++ "\x27: " ++ Json.pyrepr v) :: pyreprFields fs

end

/-- Externally observable effects of the program, in order of occurrence:
the two scraper operations, an outbound chat-completion request, and a write
to standard output. -/
inductive Event where
  | fetchContents (url : String)
  | fetchLinks (url : String)
  | chatCall (model : String)
  | stdout (text : String)

/-- Chat message: a role tag and its content. -/
structure ChatMessage where
  role : String
  content : String

/-- The external world.  `contents` and `links` are the scraper module's
fetch_website_contents and fetch_website_links; `chat` takes the model, the
messages and whether a JSON response format was requested and yields the
response message content; `chatStream` yields the arriving delta contents in
order, `none` standing for a null delta.  Every operation may instead raise,
modelled by the error branch. -/
structure Env where
  contents : String → Except String String
  links : String → Except String (List String)
  chat : String → List ChatMessage → Bool → Except String String
  chatStream : String → List ChatMessage → Except String (List (Option String))

/-- Computation of the embedded program: the returned value or the raised
exception, together with the trace of events that occurred before the
computation returned or raised. -/
structure M (α : Type) where
  res : Except String α
  trace : List Event

instance : Monad M where
  pure a := ⟨Except.ok a, []⟩
  bind x f :=
    match x.res with
    | Except.ok a => ⟨(f a).res, x.trace ++ (f a).trace⟩
    | Except.error e => ⟨Except.error e, x.trace⟩

/-- Raising an exception. -/
def M.throw {α : Type} (e : String) : M α := ⟨Except.error e, []⟩

/-- Recording one event. -/
def M.emit (ev : Event) : M Unit := ⟨Except.ok (), [ev]⟩

/-- Lifting a partial operation, raising on the undefined case. -/
def ofOption {α : Type} (err : String) : Option α → M α
  | some a => pure a
  | none => M.throw err

/-- Call of the scraper's fetch_website_contents. -/
def fetchWebsiteContents (env : Env) (url : String) : M String :=
  ⟨env.contents url, [Event.fetchContents url]⟩

/-- Call of the scraper's fetch_website_links. -/
def fetchWebsiteLinks (env : Env) (url : String) : M (List String) :=
  ⟨env.links url, [Event.fetchLinks url]⟩

/-- Non-streaming chat completion request; yields the message content. -/
def chatCompletion (env : Env) (model : String) (messages : List ChatMessage)
    (jsonFormat : Bool) : M String :=
  ⟨env.chat model messages jsonFormat, [Event.chatCall model]⟩

/-- Streaming chat completion request; yields the list of delta contents in
arrival order. -/
def chatCompletionStream (env : Env) (model : String) (messages : List ChatMessage) :
    M (List (Option String)) :=
  ⟨env.chatStream model messages, [Event.chatCall model]⟩

/-- Python print(): writes its argument and a newline to stdout. -/
def pyPrint (s : String) : M Unit := M.emit (Event.stdout (s ++ "\n"))

/-- sys.stdout.write(): writes its argument to stdout. -/
def stdoutWrite (s : String) : M Unit := M.emit (Event.stdout s)

/-- The LINK_SYSTEM_PROMPT constant of brochure.py. -/
def LINK_SYSTEM_PROMPT : String :=
  "\nYou are provided with a list of links found on a webpage.\nYou are able to decide which of the links would be most relevant to include in a brochure about the company,\nsuch as links to an About page, or a Company page, or Careers/Jobs pages.\nYou should respond in JSON as in this example:\n\n\x7b\n    \"links\": [\n        \x7b\"type\": \"about page\", \"url\": \"https://full.url/goes/here/about\"\x7d,\n        \x7b\"type\": \"careers page\", \"url\": \"https://another.full.url/careers\"\x7d\n    ]\n\x7d\n"

/-- The BROCHURE_SYSTEM_PROMPT constant of brochure.py. -/
def BROCHURE_SYSTEM_PROMPT : String :=
  "\nYou are an assistant that analyzes the contents of several relevant pages from a company website\nand creates a short brochure about the company for prospective customers, investors and recruits.\nRespond in markdown without code blocks.\nInclude details of company culture, customers and careers/jobs if you have the information.\n"

/-- The f-string head of get_links_user_prompt, before the link list. -/
def linksUserPromptHeader (url : String) : String :=
  "\nHere is the list of links on the website " ++ url ++
    " -\nPlease decide which of these are relevant web links for a brochure about the company, \nrespond with the full https URL in JSON format.\nDo not include Terms of Service, Privacy, email links.\n\nLinks (some might be relative links):\n\n"

/-- get_links_user_prompt of brochure.py: the header followed by the fetched
links joined by newlines. -/
def get_links_user_prompt (env : Env) (url : String) : M String := do
  let links ← fetchWebsiteLinks env url
  pure (linksUserPromptHeader url ++ String.intercalate ("\n") links)

/-- select_relevant_links of brochure.py: one chat completion over the link
list, its content parsed by json.loads; the progress print interpolates
len(links[\x22links\x22]), which raises when the key is absent or its value
has no len(). -/
def select_relevant_links (env : Env) (url : String) (model : String) : M Json := do
  pyPrint ("Selecting relevant links for " ++ url ++ " by calling " ++ model)
  let userPrompt ← get_links_user_prompt env url
  let result ← chatCompletion env model
    [⟨"system", LINK_SYSTEM_PROMPT⟩, ⟨"user", userPrompt⟩] true
  let links ← ofOption ("json.loads: Expecting value") (Json.parse result)
  let linksVal ← ofOption ("KeyError: links") (links.getItem ("links"))
  let n ← ofOption ("TypeError: len") linksVal.pyLen
  pyPrint ("Found " ++ toString n ++ " relevant links")
  pure links

/-- Loop body of fetch_page_and_all_relevant_links: one iteration per
selected link, in order; each iteration reads the type, appends the section
heading, reads the url and fetches it.  Passing a non-string url to the
fetcher raises inside it, as requests does for a non-string target. -/
def appendLinkSections (env : Env) : List Json → String → M String
  | [], acc => pure acc
  | link :: rest, acc => do
    let ty ← ofOption ("KeyError: type") (link.getItem ("type"))
    let acc2 := acc ++ "\n\n### Link: " ++ ty.pystr ++ "\n"
    let urlVal ← ofOption ("KeyError: url") (link.getItem ("url"))
    let urlStr ← match urlVal with
      | Json.str s => pure s
      | _ => M.throw ("TypeError: url is not a string")
    let txt ← fetchWebsiteContents env urlStr
    appendLinkSections env rest (acc2 ++ txt)

/-- fetch_page_and_all_relevant_links of brochure.py. -/
def fetch_page_and_all_relevant_links (env : Env) (url : String) (model : String) :
    M String := do
  let contents ← fetchWebsiteContents env url
  let relevantLinks ← select_relevant_links env url model
  let result := "## Landing Page:\n\n" ++ contents ++ "\n## Relevant Links:\n"
  let linksVal ← ofOption ("KeyError: links") (relevantLinks.getItem ("links"))
  let items ← ofOption ("TypeError: not iterable") linksVal.pyElems
  appendLinkSections env items result

/-- The f-string head of get_brochure_user_prompt. -/
def brochureUserPromptHeader (companyName : String) : String :=
  "\nYou are looking at a company called: " ++ companyName ++
    "\nHere are the contents of its landing page and other relevant pages;\nuse this information to build a short brochure of the company in markdown without code blocks.\n\n"

/-- Python string slicing s[:n], by code points. -/
def pySlice (s : String) (n : Nat) : String := String.mk (s.data.take n)

/-- get_brochure_user_prompt of brochure.py: header plus aggregate, sliced
to the first 5000 characters. -/
def get_brochure_user_prompt (env : Env) (companyName url model : String) : M String := do
  let body ← fetch_page_and_all_relevant_links env url model
  pure (pySlice (brochureUserPromptHeader companyName ++ body) 5000)

/-- create_brochure of brochure.py: one non-streaming completion over the
aggregated user prompt. -/
def create_brochure (env : Env) (companyName url model : String) : M String := do
  let userPrompt ← get_brochure_user_prompt env companyName url model
  chatCompletion env model
    [⟨"system", BROCHURE_SYSTEM_PROMPT⟩, ⟨"user", userPrompt⟩] false

/-- The 60-character banner line of stream_brochure. -/
def eqBanner : String := String.mk (List.replicate 60 '=')

/-- Accumulation loop of stream_brochure: each delta content is normalized
with `or \x22\x22`, appended to the accumulator and written to stdout
immediately. -/
def streamLoop : List (Option String) → String → M String
  | [], acc => pure acc
  | chunk :: rest, acc => do
    let content := chunk.getD ""
    let acc2 := acc ++ content
    stdoutWrite content
    streamLoop rest acc2

/-- stream_brochure of brochure.py: the same request as create_brochure in
streaming mode, with banner prints around the incremental writes; returns
the accumulated response. -/
def stream_brochure (env : Env) (companyName url model : String) : M String := do
  let userPrompt ← get_brochure_user_prompt env companyName url model
  let stream ← chatCompletionStream env model
    [⟨"system", BROCHURE_SYSTEM_PROMPT⟩, ⟨"user", userPrompt⟩]
  pyPrint ("\n" ++ eqBanner)
  pyPrint ("GENERATED BROCHURE")
  pyPrint (eqBanner ++ "\n")
  let response ← streamLoop stream ""
  pyPrint ("\n\n" ++ eqBanner)
  pure response

/-- Concatenation of a list of strings, leftmost first. -/
def strConcat : List String → String
  | [] => ""
  | s :: rest => s ++ strConcat rest

/-- Concatenation of the delta contents of a stream, a null delta counting
as empty. -/
def joinDeltas (chunks : List (Option String)) : String :=
  strConcat (chunks.map fun c => c.getD "")

/-- Urls of the page-content fetches recorded in a trace, in order. -/
def tracePageFetchUrls (t : List Event) : List String :=
  t.filterMap fun ev =>
    match ev with
    | Event.fetchContents s => some s
    | _ => none

/-- JSON object for one selected link record with the given type and url. -/
def recJson (r : String × String) : Json :=
  Json.obj [(("type"), Json.str r.1), (("url"), Json.str r.2)]

/-- Failure condition of select_relevant_links on a response body, under the
embedding: the body does not parse, or the parsed value has no links entry
(not a dict, or key absent), or the entry's value has no len(). -/
def selectFailureCondition (body : String) : Prop :=
  match Json.parse body with
  | none => True
  | some j =>
    match j.getItem ("links") with
    | none => True
    | some v => v.pyLen = none

/-- Concrete environment on the happy path: every page fetch succeeds, link
selection returns an empty links list, the non-streaming completion returns
the body that the streamed fragments concatenate to. -/
def envHappy : Env where
  contents := fun u => Except.ok ("TEXT[" ++ u ++ "]")
  links := fun _ => Except.ok [("https://acme.example/about")]
  chat := fun _ _ jsonFormat =>
    if jsonFormat then Except.ok ("\x7b\"links\": []\x7d") else Except.ok ("BROCHURE")
  chatStream := fun _ _ => Except.ok [some ("BRO"), none, some ("CHURE")]

/-- Aggregate produced by envHappy for the landing url. -/
def happyAggregate : String :=
  "## Landing Page:\n\nTEXT[https://acme.example]\n## Relevant Links:\n"

/-- Trace of the aggregation under envHappy. -/
def happyTrace : List Event :=
  [Event.fetchContents ("https://acme.example"),
   Event.stdout ("Selecting relevant links for https://acme.example by calling m\n"),
   Event.fetchLinks ("https://acme.example"),
   Event.chatCall ("m"),
   Event.stdout ("Found 0 relevant links\n")]

/-- Brochure user prompt produced by envHappy (shorter than 5000, so not
truncated). -/
def happyPrompt : String :=
  brochureUserPromptHeader ("Acme") ++ happyAggregate

/-- Concrete environment whose link selection returns two typed links. -/
def envTwoLinks : Env where
  contents := fun u => Except.ok ("TEXT[" ++ u ++ "]")
  links := fun _ => Except.ok [("/about"), ("/careers"), ("/privacy")]
  chat := fun _ _ _ =>
    Except.ok ("\x7b\"links\": [\x7b\"type\": \"about page\", \"url\": \"https://acme.example/about\"\x7d, \x7b\"type\": \"careers page\", \"url\": \"https://acme.example/careers\"\x7d]\x7d")
  chatStream := fun _ _ => Except.ok []

/-- Concrete environment whose link selection returns one link with an empty
url. -/
def envEmptyUrl : Env where
  contents := fun u => Except.ok ("TEXT[" ++ u ++ "]")
  links := fun _ => Except.ok [("/about")]
  chat := fun _ _ _ =>
    Except.ok ("\x7b\"links\": [\x7b\"type\": \"about page\", \"url\": \"\"\x7d]\x7d")
  chatStream := fun _ _ => Except.ok []

/-- Concrete environment whose link-selection response is valid JSON with a
links key whose value is the number 5. -/
def envLenFive : Env where
  contents := fun u => Except.ok ("TEXT[" ++ u ++ "]")
  links := fun _ => Except.ok [("/about")]
  chat := fun _ _ _ => Except.ok ("\x7b\"links\": 5\x7d")
  chatStream := fun _ _ => Except.ok []

/-- Concrete environment whose link-selection response body is not JSON. -/
def envNotJson : Env where
  contents := fun u => Except.ok ("TEXT[" ++ u ++ "]")
  links := fun _ => Except.ok [("/about")]
  chat := fun _ _ _ => Except.ok ("not json")
  chatStream := fun _ _ => Except.ok []

/-- Concrete environment where the second selected link's page fetch fails. -/
def envFetchFail : Env where
  contents := fun s =>
    if s = "https://acme.example/bad" then Except.error ("boom")
    else Except.ok ("TEXT[" ++ s ++ "]")
  links := fun _ => Except.ok [("/a")]
  chat := fun _ _ _ =>
    Except.ok ("\x7b\"links\": [\x7b\"type\": \"about page\", \"url\": \"https://acme.example/about\"\x7d, \x7b\"type\": \"careers page\", \"url\": \"https://acme.example/bad\"\x7d, \x7b\"type\": \"x\", \"url\": \"https://acme.example/after\"\x7d]\x7d")
  chatStream := fun _ _ => Except.ok []

/-- Concrete environment whose link selection returns a well-formed record
followed by a record lacking the type key. -/
def envBadSecond : Env where
  contents := fun u => Except.ok ("TEXT[" ++ u ++ "]")
  links := fun _ => Except.ok [("/about")]
  chat := fun _ _ _ =>
    Except.ok ("\x7b\"links\": [\x7b\"type\": \"about page\", \"url\": \"https://acme.example/about\"\x7d, \x7b\"url\": \"https://acme.example/care\"\x7d]\x7d")
  chatStream := fun _ _ => Except.ok []

/-- Concrete environment whose link-selection response body holds the list
[NaN], which json.loads accepts by default. -/
def envNaN : Env where
  contents := fun u => Except.ok ("TEXT[" ++ u ++ "]")
  links := fun _ => Except.ok [("/about")]
  chat := fun _ _ _ => Except.ok ("\x7b\"links\": [NaN]\x7d")
  chatStream := fun _ _ => Except.ok []

/-- Unfolding of bind on a successful computation. -/
@[simp]
theorem bind_ok {α β : Type} (a : α) (t : List Event) (f : α → M β) :
    (⟨Except.ok a, t⟩ : M α) >>= f = ⟨(f a).res, t ++ (f a).trace⟩ := rfl

/-- Unfolding of bind on a raised exception. -/
@[simp]
theorem bind_error {α β : Type} (e : String) (t : List Event) (f : α → M β) :
    (⟨Except.error e, t⟩ : M α) >>= f = ⟨Except.error e, t⟩ := rfl

/-- Unfolding of pure. -/
@[simp]
theorem pure_def {α : Type} (a : α) : (pure a : M α) = ⟨Except.ok a, []⟩ := rfl

/-- Length of a Python slice. -/
theorem pySlice_length (s : String) (n : Nat) : (pySlice s n).length = min n s.length := by
  show (s.data.take n).length = min n s.length
  rw [List.length_take]
  rfl

/-- A slice not shorter than the string is the string. -/
theorem pySlice_of_le (s : String) (n : Nat) (h : s.length ≤ n) : pySlice s n = s := by
  show String.mk (s.data.take n) = s
  rw [List.take_of_length_le h]

/-- get_links_user_prompt on a successful link fetch. -/
theorem get_links_user_prompt_ok (env : Env) (url : String) (ls : List String)
    (h : env.links url = Except.ok ls) :
    get_links_user_prompt env url =
      ⟨Except.ok (linksUserPromptHeader url ++ String.intercalate ("\n") ls),
        [Event.fetchLinks url]⟩ := by
  simp [get_links_user_prompt, fetchWebsiteLinks, h]

/-- select_relevant_links on the path where the link fetch and the chat call
succeed, the body parses, the links entry exists and supports len(): the
parsed value is returned unchanged together with the trace of the calls. -/
theorem select_relevant_links_ok (env : Env) (url model : String)
    (ls : List String) (body : String) (j v : Json) (n : Nat)
    (hlinks : env.links url = Except.ok ls)
    (hchat : env.chat model
      [⟨("system"), LINK_SYSTEM_PROMPT⟩,
       ⟨("user"), linksUserPromptHeader url ++ String.intercalate ("\n") ls⟩] true =
      Except.ok body)
    (hparse : Json.parse body = some j)
    (hkey : j.getItem ("links") = some v)
    (hlen : v.pyLen = some n) :
    select_relevant_links env url model =
      ⟨Except.ok j,
        [Event.stdout ("Selecting relevant links for " ++ url ++ " by calling " ++ model ++ "\n"),
         Event.fetchLinks url,
         Event.chatCall model,
         Event.stdout ("Found " ++ toString n ++ " relevant links" ++ "\n")]⟩ := by
  simp [select_relevant_links, pyPrint, M.emit, get_links_user_prompt, fetchWebsiteLinks,
    hlinks, chatCompletion, hchat, ofOption, hparse, hkey, hlen]

/-- C1: the brochure user prompt is the wrapped aggregate truncated to its
first 5000 characters: when the combined string exceeds 5000 characters the
result has length exactly 5000, when it is at most 5000 characters the
result is the combined string unchanged, and the result never exceeds 5000
characters. -/
theorem get_brochure_user_prompt_truncation (env : Env) (c u m : String)
    (b : String) (tr : List Event)
    (hfetch : fetch_page_and_all_relevant_links env u m = ⟨Except.ok b, tr⟩) :
    (get_brochure_user_prompt env c u m).res =
      Except.ok (pySlice (brochureUserPromptHeader c ++ b) 5000) ∧
    (5000 < (brochureUserPromptHeader c ++ b).length →
      (pySlice (brochureUserPromptHeader c ++ b) 5000).length = 5000) ∧
    ((brochureUserPromptHeader c ++ b).length ≤ 5000 →
      pySlice (brochureUserPromptHeader c ++ b) 5000 = brochureUserPromptHeader c ++ b) ∧
    (pySlice (brochureUserPromptHeader c ++ b) 5000).length ≤ 5000 := by
  refine ⟨?_, fun h => ?_, fun h => ?_, ?_⟩
  · simp [get_brochure_user_prompt, hfetch]
  · rw [pySlice_length]
    exact Nat.min_eq_left (Nat.le_of_lt h)
  · exact pySlice_of_le _ _ h
  · rw [pySlice_length]
    exact Nat.min_le_left _ _

/-- Witness for C1 at a concrete environment whose aggregate stays below the
truncation threshold. -/
theorem get_brochure_user_prompt_truncation_witness :
    (get_brochure_user_prompt envHappy ("Acme") ("https://acme.example") ("m")).res =
      Except.ok (pySlice (brochureUserPromptHeader ("Acme") ++ happyAggregate) 5000) ∧
    (5000 < (brochureUserPromptHeader ("Acme") ++ happyAggregate).length →
      (pySlice (brochureUserPromptHeader ("Acme") ++ happyAggregate) 5000).length = 5000) ∧
    ((brochureUserPromptHeader ("Acme") ++ happyAggregate).length ≤ 5000 →
      pySlice (brochureUserPromptHeader ("Acme") ++ happyAggregate) 5000 =
        brochureUserPromptHeader ("Acme") ++ happyAggregate) ∧
    (pySlice (brochureUserPromptHeader ("Acme") ++ happyAggregate) 5000).length ≤ 5000 :=
  get_brochure_user_prompt_truncation envHappy ("Acme") ("https://acme.example") ("m")
    happyAggregate happyTrace rfl

/-- The stream accumulation loop returns the accumulator followed by the
concatenated normalized deltas, writing each normalized delta in order. -/
theorem streamLoop_spec (chunks : List (Option String)) (acc : String) :
    streamLoop chunks acc =
      ⟨Except.ok (acc ++ joinDeltas chunks),
        chunks.map fun c => Event.stdout (c.getD "")⟩ := by
  induction chunks generalizing acc with
  | nil => simp [streamLoop, joinDeltas, strConcat, String.append_empty]
  | cons chunk rest ih =>
    simp [streamLoop, stdoutWrite, M.emit, ih, joinDeltas, strConcat, String.append_assoc]

/-- Null deltas contribute nothing: concatenating the normalized deltas is
concatenating the non-null deltas. -/
theorem joinDeltas_filterMap (chunks : List (Option String)) :
    joinDeltas chunks = strConcat (chunks.filterMap id) := by
  induction chunks with
  | nil => rfl
  | cons chunk rest ih =>
    cases chunk with
    | none => simpa [joinDeltas, strConcat, String.empty_append] using ih
    | some s => simp [joinDeltas, strConcat] at ih ⊢; rw [ih]

/-- C2: the string returned by stream_brochure is the concatenation, in
arrival order, of the incremental fragments; and when the streamed fragments
concatenate to the non-streaming response body over the same inputs,
stream_brochure and create_brochure return equal strings. -/
theorem stream_brochure_accumulates (env : Env) (c u m : String)
    (p : String) (tr : List Event) (chunks : List (Option String)) (body : String)
    (hprompt : get_brochure_user_prompt env c u m = ⟨Except.ok p, tr⟩)
    (hstream : env.chatStream m
      [⟨("system"), BROCHURE_SYSTEM_PROMPT⟩, ⟨("user"), p⟩] = Except.ok chunks)
    (hchat : env.chat m
      [⟨("system"), BROCHURE_SYSTEM_PROMPT⟩, ⟨("user"), p⟩] false = Except.ok body)
    (hbody : body = joinDeltas chunks) :
    (stream_brochure env c u m).res = Except.ok (joinDeltas chunks) ∧
    (stream_brochure env c u m).res = (create_brochure env c u m).res := by
  have hs : (stream_brochure env c u m).res = Except.ok (joinDeltas chunks) := by
    simp [stream_brochure, hprompt, chatCompletionStream, hstream, pyPrint, M.emit,
      streamLoop_spec, String.empty_append]
  refine ⟨hs, ?_⟩
  rw [hs]
  simp [create_brochure, hprompt, chatCompletion, hchat, hbody]

/-- Witness for C2: under envHappy the fragments BRO, null, CHURE
concatenate to the non-streaming body BROCHURE. -/
theorem stream_brochure_accumulates_witness :
    (stream_brochure envHappy ("Acme") ("https://acme.example") ("m")).res =
      Except.ok (joinDeltas [some ("BRO"), none, some ("CHURE")]) ∧
    (stream_brochure envHappy ("Acme") ("https://acme.example") ("m")).res =
      (create_brochure envHappy ("Acme") ("https://acme.example") ("m")).res :=
  stream_brochure_accumulates envHappy ("Acme") ("https://acme.example") ("m")
    happyPrompt happyTrace [some ("BRO"), none, some ("CHURE")] ("BROCHURE")
    rfl rfl rfl rfl

/-- C9: a fragment whose delta content is null is treated as the empty
string: accumulation and printing succeed, the returned string is the
concatenation of the non-null fragments, and the normalized fragments are
written to stdout in arrival order. -/
theorem stream_brochure_null_deltas (env : Env) (c u m : String)
    (p : String) (tr : List Event) (chunks : List (Option String))
    (hprompt : get_brochure_user_prompt env c u m = ⟨Except.ok p, tr⟩)
    (hstream : env.chatStream m
      [⟨("system"), BROCHURE_SYSTEM_PROMPT⟩, ⟨("user"), p⟩] = Except.ok chunks) :
    (stream_brochure env c u m).res = Except.ok (strConcat (chunks.filterMap id)) ∧
    ∃ pre post, (stream_brochure env c u m).trace =
      pre ++ (chunks.map fun chunk => Event.stdout (chunk.getD "")) ++ post := by
  constructor
  · rw [← joinDeltas_filterMap]
    simp [stream_brochure, hprompt, chatCompletionStream, hstream, pyPrint, M.emit,
      streamLoop_spec, String.empty_append]
  · refine ⟨tr ++ [Event.chatCall m] ++
      [Event.stdout ("\n" ++ eqBanner ++ "\n"), Event.stdout ("GENERATED BROCHURE" ++ "\n"),
       Event.stdout (eqBanner ++ "\n" ++ "\n")],
      [Event.stdout ("\n\n" ++ eqBanner ++ "\n")], ?_⟩
    simp [stream_brochure, hprompt, chatCompletionStream, hstream, pyPrint, M.emit,
      streamLoop_spec, String.empty_append, String.append_assoc]

/-- Witness for C9 at envHappy, whose stream contains a null fragment. -/
theorem stream_brochure_null_deltas_witness :
    (stream_brochure envHappy ("Acme") ("https://acme.example") ("m")).res =
      Except.ok (strConcat (([some ("BRO"), none, some ("CHURE")] :
        List (Option String)).filterMap id)) ∧
    ∃ pre post, (stream_brochure envHappy ("Acme") ("https://acme.example") ("m")).trace =
      pre ++ (([some ("BRO"), none, some ("CHURE")] : List (Option String)).map
        fun chunk => Event.stdout (chunk.getD "")) ++ post :=
  stream_brochure_null_deltas envHappy ("Acme") ("https://acme.example") ("m")
    happyPrompt happyTrace [some ("BRO"), none, some ("CHURE")] rfl rfl

/-- Subscript of a link record by type. -/
theorem recJson_type (r : String × String) :
    (recJson r).getItem ("type") = some (Json.str r.1) := rfl

/-- Subscript of a link record by url. -/
theorem recJson_url (r : String × String) :
    (recJson r).getItem ("url") = some (Json.str r.2) := rfl

/-- The aggregation loop over well-shaped link records, when every page
fetch succeeds: one section per record, in list order, each page fetched
exactly once, in order. -/
theorem appendLinkSections_ok (env : Env) (pages : String → String)
    (hcont : ∀ s, env.contents s = Except.ok (pages s)) (recs : List (String × String))
    (acc : String) :
    appendLinkSections env (recs.map recJson) acc =
      ⟨Except.ok (acc ++
          strConcat (recs.map fun r => "\n\n### Link: " ++ r.1 ++ "\n" ++ pages r.2)),
        recs.map fun r => Event.fetchContents r.2⟩ := by
  induction recs generalizing acc with
  | nil => simp [appendLinkSections, strConcat, String.append_empty]
  | cons r rest ih =>
    simp [appendLinkSections, recJson_type, recJson_url, ofOption, Json.pystr,
      fetchWebsiteContents, hcont, ih, strConcat, String.append_assoc]

/-- C3: the aggregate consists of the landing-page section first, then
exactly one section per selected link, in exactly the order the link
selector returned them, with no reordering and no deduplication. -/
theorem fetch_page_sections_in_order (env : Env) (u m : String)
    (rawLinks : List String) (body : String) (sel : Json)
    (recs : List (String × String)) (pages : String → String)
    (hlinks : env.links u = Except.ok rawLinks)
    (hchat : env.chat m [⟨("system"), LINK_SYSTEM_PROMPT⟩,
      ⟨("user"), linksUserPromptHeader u ++ String.intercalate ("\n") rawLinks⟩] true =
      Except.ok body)
    (hparse : Json.parse body = some sel)
    (hsel : sel.getItem ("links") = some (Json.arr (recs.map recJson)))
    (hcont : ∀ s, env.contents s = Except.ok (pages s)) :
    (fetch_page_and_all_relevant_links env u m).res =
      Except.ok ("## Landing Page:\n\n" ++ pages u ++ "\n## Relevant Links:\n" ++
        strConcat (recs.map fun r => "\n\n### Link: " ++ r.1 ++ "\n" ++ pages r.2)) := by
  have hselect := select_relevant_links_ok env u m rawLinks body sel
    (Json.arr (recs.map recJson)) (recs.map recJson).length hlinks hchat hparse hsel rfl
  simp [fetch_page_and_all_relevant_links, fetchWebsiteContents, hcont, hselect,
    ofOption, hsel, Json.pyElems, appendLinkSections_ok env pages hcont,
    String.append_assoc]

/-- Witness for C3: two selected links produce two sections in selector
order. -/
theorem fetch_page_sections_in_order_witness :
    (fetch_page_and_all_relevant_links envTwoLinks ("https://acme.example") ("m")).res =
      Except.ok ("## Landing Page:\n\n" ++ ("TEXT[" ++ "https://acme.example" ++ "]") ++
        "\n## Relevant Links:\n" ++
        strConcat ([(("about page"), ("https://acme.example/about")),
          (("careers page"), ("https://acme.example/careers"))].map
            fun r => "\n\n### Link: " ++ r.1 ++ "\n" ++ ("TEXT[" ++ r.2 ++ "]"))) :=
  fetch_page_sections_in_order envTwoLinks ("https://acme.example") ("m")
    [("/about"), ("/careers"), ("/privacy")]
    ("\x7b\"links\": [\x7b\"type\": \"about page\", \"url\": \"https://acme.example/about\"\x7d, \x7b\"type\": \"careers page\", \"url\": \"https://acme.example/careers\"\x7d]\x7d")
    (Json.obj [(("links"), Json.arr
      [recJson (("about page"), ("https://acme.example/about")),
       recJson (("careers page"), ("https://acme.example/careers"))])])
    [(("about page"), ("https://acme.example/about")),
     (("careers page"), ("https://acme.example/careers"))]
    (fun s => "TEXT[" ++ s ++ "]")
    rfl rfl rfl rfl (fun _ => rfl)

/-- C8: an empty selected-links list still yields a normal return whose
value is the landing-page section followed by the Relevant Links heading and
nothing else. -/
theorem fetch_page_empty_links (env : Env) (u m : String) (landing : String)
    (rawLinks : List String)
    (hcont : env.contents u = Except.ok landing)
    (hlinks : env.links u = Except.ok rawLinks)
    (hchat : env.chat m [⟨("system"), LINK_SYSTEM_PROMPT⟩,
      ⟨("user"), linksUserPromptHeader u ++ String.intercalate ("\n") rawLinks⟩] true =
      Except.ok ("\x7b\"links\": []\x7d")) :
    (fetch_page_and_all_relevant_links env u m).res =
      Except.ok ("## Landing Page:\n\n" ++ landing ++ "\n## Relevant Links:\n") := by
  have hselect := select_relevant_links_ok env u m rawLinks ("\x7b\"links\": []\x7d")
    (Json.obj [(("links"), Json.arr [])]) (Json.arr []) 0 hlinks hchat rfl rfl rfl
  have hk : (Json.obj [(("links"), Json.arr [])]).getItem ("links") = some (Json.arr []) := rfl
  simp [fetch_page_and_all_relevant_links, fetchWebsiteContents, hcont, hselect,
    ofOption, hk, Json.pyElems, appendLinkSections]

/-- Witness for C8 at a concrete environment returning an empty links
list. -/
theorem fetch_page_empty_links_witness :
    (fetch_page_and_all_relevant_links envHappy ("https://acme.example") ("m")).res =
      Except.ok ("## Landing Page:\n\n" ++ ("TEXT[" ++ "https://acme.example" ++ "]") ++
        "\n## Relevant Links:\n") :=
  fetch_page_empty_links envHappy ("https://acme.example") ("m")
    ("TEXT[" ++ "https://acme.example" ++ "]") [("https://acme.example/about")]
    rfl rfl rfl

/-- Page-fetch urls of the empty trace. -/
@[simp]
theorem tracePageFetchUrls_nil : tracePageFetchUrls [] = [] := rfl

/-- Page-fetch urls after a page fetch. -/
@[simp]
theorem tracePageFetchUrls_cons_contents (u : String) (t : List Event) :
    tracePageFetchUrls (Event.fetchContents u :: t) = u :: tracePageFetchUrls t := rfl

/-- Page-fetch urls after a link-list fetch. -/
@[simp]
theorem tracePageFetchUrls_cons_links (u : String) (t : List Event) :
    tracePageFetchUrls (Event.fetchLinks u :: t) = tracePageFetchUrls t := rfl

/-- Page-fetch urls after a chat call. -/
@[simp]
theorem tracePageFetchUrls_cons_chat (m : String) (t : List Event) :
    tracePageFetchUrls (Event.chatCall m :: t) = tracePageFetchUrls t := rfl

/-- Page-fetch urls after a stdout write. -/
@[simp]
theorem tracePageFetchUrls_cons_stdout (s : String) (t : List Event) :
    tracePageFetchUrls (Event.stdout s :: t) = tracePageFetchUrls t := rfl

/-- Page-fetch urls distribute over trace concatenation. -/
@[simp]
theorem tracePageFetchUrls_append (s t : List Event) :
    tracePageFetchUrls (s ++ t) = tracePageFetchUrls s ++ tracePageFetchUrls t :=
  List.filterMap_append ..

/-- Page-fetch urls of a pure list of page fetches. -/
theorem tracePageFetchUrls_map_fetch {α : Type} (f : α → String) (l : List α) :
    tracePageFetchUrls (l.map fun r => Event.fetchContents (f r)) = l.map f := by
  induction l with
  | nil => rfl
  | cons a l ih => simp [ih]

/-- Amended C4: select_relevant_links is parse fidelity without filtering:
whenever the response body parses and its links entry supports len(), the
whole parsed structure is returned unchanged, entries with empty urls
included. -/
theorem select_relevant_links_parse_fidelity (env : Env) (u m : String)
    (ls : List String) (body : String) (j v : Json) (n : Nat)
    (hlinks : env.links u = Except.ok ls)
    (hchat : env.chat m
      [⟨("system"), LINK_SYSTEM_PROMPT⟩,
       ⟨("user"), linksUserPromptHeader u ++ String.intercalate ("\n") ls⟩] true =
      Except.ok body)
    (hparse : Json.parse body = some j)
    (hkey : j.getItem ("links") = some v)
    (hlen : v.pyLen = some n) :
    (select_relevant_links env u m).res = Except.ok j := by
  rw [select_relevant_links_ok env u m ls body j v n hlinks hchat hparse hkey hlen]

/-- Counterexample to C4 as stated: a model response whose single link
record has an empty url is echoed through unchanged, so the returned links
list contains an entry with an empty url. -/
theorem select_relevant_links_empty_url_counterexample :
    (select_relevant_links envEmptyUrl ("https://acme.example") ("m")).res =
      Except.ok (Json.obj [(("links"), Json.arr
        [Json.obj [(("type"), Json.str ("about page")), (("url"), Json.str (""))]])]) ∧
    (Json.obj [(("type"), Json.str ("about page")),
      (("url"), Json.str (""))]).getItem ("url") = some (Json.str ("")) :=
  ⟨rfl, rfl⟩

/-- Witness for the amended C4 at the empty-url environment. -/
theorem select_relevant_links_parse_fidelity_witness :
    (select_relevant_links envEmptyUrl ("https://acme.example") ("m")).res =
      Except.ok (Json.obj [(("links"), Json.arr
        [Json.obj [(("type"), Json.str ("about page")), (("url"), Json.str (""))]])]) :=
  select_relevant_links_parse_fidelity envEmptyUrl ("https://acme.example") ("m")
    [("/about")] ("\x7b\"links\": [\x7b\"type\": \"about page\", \"url\": \"\"\x7d]\x7d")
    (Json.obj [(("links"), Json.arr
      [Json.obj [(("type"), Json.str ("about page")), (("url"), Json.str (""))]])])
    (Json.arr [Json.obj [(("type"), Json.str ("about page")), (("url"), Json.str (""))]])
    1 rfl rfl rfl rfl rfl

/-- Amended C5: given successful link fetch and chat call, the embedded
select_relevant_links raises if and only if the response body does not
parse as JSON, or the parsed value has no links entry, or the links value
does not support len(); it returns normally in every other case. -/
theorem select_relevant_links_failure_iff (env : Env) (u m : String)
    (rawLinks : List String) (body : String)
    (hlinks : env.links u = Except.ok rawLinks)
    (hchat : env.chat m [⟨("system"), LINK_SYSTEM_PROMPT⟩,
      ⟨("user"), linksUserPromptHeader u ++ String.intercalate ("\n") rawLinks⟩] true =
      Except.ok body) :
    (∃ e, (select_relevant_links env u m).res = Except.error e) ↔
      selectFailureCondition body := by
  rcases hp : Json.parse body with _ | j
  · simp [select_relevant_links, pyPrint, M.emit, get_links_user_prompt, fetchWebsiteLinks,
      hlinks, chatCompletion, hchat, ofOption, hp, M.throw, selectFailureCondition]
  · rcases hk : j.getItem ("links") with _ | v
    · simp [select_relevant_links, pyPrint, M.emit, get_links_user_prompt, fetchWebsiteLinks,
        hlinks, chatCompletion, hchat, ofOption, hp, hk, M.throw, selectFailureCondition]
    · rcases hl : v.pyLen with _ | n
      · simp [select_relevant_links, pyPrint, M.emit, get_links_user_prompt, fetchWebsiteLinks,
          hlinks, chatCompletion, hchat, ofOption, hp, hk, hl, M.throw, selectFailureCondition]
      · simp [select_relevant_links, pyPrint, M.emit, get_links_user_prompt, fetchWebsiteLinks,
          hlinks, chatCompletion, hchat, ofOption, hp, hk, hl, selectFailureCondition]

/-- Counterexample to C5 as stated: the body is valid JSON and holds a links
key, yet the call raises, because len() of the number 5 raises TypeError in
the progress print. -/
theorem select_relevant_links_valid_json_failure_counterexample :
    Json.parse ("\x7b\"links\": 5\x7d") = some (Json.obj [(("links"), Json.num 5 0)]) ∧
    (Json.obj [(("links"), Json.num 5 0)]).getItem ("links") = some (Json.num 5 0) ∧
    (select_relevant_links envLenFive ("https://acme.example") ("m")).res =
      Except.error ("TypeError: len") :=
  ⟨rfl, rfl, rfl⟩

/-- Witness for the amended C5 at a body that is not JSON. -/
theorem select_relevant_links_failure_iff_witness :
    (∃ e, (select_relevant_links envNotJson ("https://acme.example") ("m")).res =
      Except.error e) ↔ selectFailureCondition ("not json") :=
  select_relevant_links_failure_iff envNotJson ("https://acme.example") ("m")
    [("/about")] ("not json") rfl rfl

/-- Fidelity of the json.loads model at its default constants: a body whose
links value is the list [NaN] parses, as it does in CPython. -/
theorem parse_accepts_nan_list :
    Json.parse ("\x7b\"links\": [NaN]\x7d") =
      some (Json.obj [(("links"), Json.arr [Json.nan])]) := rfl

/-- On the body whose links value is [NaN] the link selection returns
normally, as the real program does: len of a one-element list succeeds. -/
theorem select_returns_normally_on_nan_list :
    (select_relevant_links envNaN ("https://acme.example") ("m")).res =
      Except.ok (Json.obj [(("links"), Json.arr [Json.nan])]) := rfl

/-- C6: when the link-selection response body is not JSON, the aggregation
fails, and the only page-content fetch in its trace is the landing page:
no selected link's page is ever fetched. -/
theorem fetch_page_malformed_json_no_link_fetch (env : Env) (u m : String)
    (hchat : ∀ msgs, env.chat m msgs true = Except.ok ("not json")) :
    (∃ e, (fetch_page_and_all_relevant_links env u m).res = Except.error e) ∧
    tracePageFetchUrls (fetch_page_and_all_relevant_links env u m).trace = [u] := by
  have hparse : Json.parse ("not json") = none := rfl
  cases hc : env.contents u with
  | error e =>
    constructor
    · exact ⟨e, by simp [fetch_page_and_all_relevant_links, fetchWebsiteContents, hc]⟩
    · simp [fetch_page_and_all_relevant_links, fetchWebsiteContents, hc, tracePageFetchUrls]
  | ok landing =>
    cases hl : env.links u with
    | error e =>
      constructor
      · exact ⟨e, by simp [fetch_page_and_all_relevant_links, fetchWebsiteContents, hc,
          select_relevant_links, pyPrint, M.emit, get_links_user_prompt,
          fetchWebsiteLinks, hl]⟩
      · simp [fetch_page_and_all_relevant_links, fetchWebsiteContents, hc,
          select_relevant_links, pyPrint, M.emit, get_links_user_prompt, fetchWebsiteLinks, hl]
    | ok ls =>
      constructor
      · exact ⟨("json.loads: Expecting value"), by
          simp [fetch_page_and_all_relevant_links, fetchWebsiteContents, hc,
            select_relevant_links, pyPrint, M.emit, get_links_user_prompt, fetchWebsiteLinks,
            hl, chatCompletion, hchat, ofOption, hparse, M.throw]⟩
      · simp [fetch_page_and_all_relevant_links, fetchWebsiteContents, hc,
          select_relevant_links, pyPrint, M.emit, get_links_user_prompt, fetchWebsiteLinks,
          hl, chatCompletion, hchat, ofOption, hparse, M.throw]

/-- Witness for C6 at a concrete environment returning the body not json. -/
theorem fetch_page_malformed_json_no_link_fetch_witness :
    (∃ e, (fetch_page_and_all_relevant_links envNotJson
      ("https://acme.example") ("m")).res = Except.error e) ∧
    tracePageFetchUrls (fetch_page_and_all_relevant_links envNotJson
      ("https://acme.example") ("m")).trace = [("https://acme.example")] :=
  fetch_page_malformed_json_no_link_fetch envNotJson ("https://acme.example") ("m")
    (fun _ => rfl)

/-- The aggregation loop when every record before some link succeeds and
that link's page fetch fails: the loop raises that error, having fetched the
earlier pages once each, in order, then the failing page once, and nothing
afterwards. -/
theorem appendLinkSections_fail (env : Env) (pre : List (String × String)) (ty uu : String)
    (post : List Json) (err : String)
    (hpre : ∀ r ∈ pre, ∃ t, env.contents r.2 = Except.ok t)
    (hfail : env.contents uu = Except.error err) :
    ∀ acc, appendLinkSections env (pre.map recJson ++ recJson ((ty), (uu)) :: post) acc =
      ⟨Except.error err,
        (pre.map fun r => Event.fetchContents r.2) ++ [Event.fetchContents uu]⟩ := by
  induction pre with
  | nil =>
    intro acc
    simp [appendLinkSections, recJson_type, recJson_url, ofOption, Json.pystr,
      fetchWebsiteContents, hfail]
  | cons r rest ih =>
    intro acc
    obtain ⟨t, ht⟩ := hpre r (List.mem_cons_self r rest)
    have ih2 := ih (fun x hx => hpre x (List.mem_cons_of_mem r hx))
    simp [appendLinkSections, recJson_type, recJson_url, ofOption, Json.pystr,
      fetchWebsiteContents, ht, ih2]

/-- C7: a failing page fetch is fatal.  If the landing-page fetch fails, the
aggregation fails with that error after that single fetch.  If the fetch of
some selected link's page fails, the aggregation fails with that error, the
pages fetched are exactly the landing page, the earlier links in order, and
the failing link once (no retry), and no later link is fetched; no partial
aggregate is returned. -/
theorem fetch_page_fetch_failure_fatal (env : Env) (u m : String) :
    (∀ e, env.contents u = Except.error e →
      (fetch_page_and_all_relevant_links env u m).res = Except.error e ∧
      tracePageFetchUrls (fetch_page_and_all_relevant_links env u m).trace = [u]) ∧
    (∀ (landing : String) (rawLinks : List String) (body : String) (sel : Json)
      (pre : List (String × String)) (ty uu : String) (post : List (String × String))
      (err : String),
      env.contents u = Except.ok landing →
      env.links u = Except.ok rawLinks →
      env.chat m [⟨("system"), LINK_SYSTEM_PROMPT⟩,
        ⟨("user"), linksUserPromptHeader u ++ String.intercalate ("\n") rawLinks⟩] true =
        Except.ok body →
      Json.parse body = some sel →
      sel.getItem ("links") = some (Json.arr ((pre ++ ((ty), (uu)) :: post).map recJson)) →
      (∀ r ∈ pre, ∃ t, env.contents r.2 = Except.ok t) →
      env.contents uu = Except.error err →
      (fetch_page_and_all_relevant_links env u m).res = Except.error err ∧
      tracePageFetchUrls (fetch_page_and_all_relevant_links env u m).trace =
        u :: (pre.map Prod.snd ++ [uu])) := by
  constructor
  · intro e he
    constructor
    · simp [fetch_page_and_all_relevant_links, fetchWebsiteContents, he]
    · simp [fetch_page_and_all_relevant_links, fetchWebsiteContents, he]
  · intro landing rawLinks body sel pre ty uu post err hcont hlinks hchat hparse hsel
      hpre hfail
    have hselect := select_relevant_links_ok env u m rawLinks body sel
      (Json.arr ((pre ++ ((ty), (uu)) :: post).map recJson))
      ((pre ++ ((ty), (uu)) :: post).map recJson).length hlinks hchat hparse hsel rfl
    have hloop := appendLinkSections_fail env pre ty uu (post.map recJson) err hpre hfail
    constructor
    · simp [fetch_page_and_all_relevant_links, fetchWebsiteContents, hcont, hselect,
        ofOption, hsel, Json.pyElems, hloop]
    · simp [fetch_page_and_all_relevant_links, fetchWebsiteContents, hcont, hselect,
        ofOption, hsel, Json.pyElems, hloop, tracePageFetchUrls_map_fetch Prod.snd pre]

/-- Witness for C7: the second of three selected links fails to fetch; the
run fails with that error, having fetched the landing page, the first link
and the failing link only. -/
theorem fetch_page_fetch_failure_fatal_witness :
    (fetch_page_and_all_relevant_links envFetchFail
      ("https://acme.example") ("m")).res = Except.error ("boom") ∧
    tracePageFetchUrls (fetch_page_and_all_relevant_links envFetchFail
      ("https://acme.example") ("m")).trace =
      [("https://acme.example"), ("https://acme.example/about"),
       ("https://acme.example/bad")] :=
  (fetch_page_fetch_failure_fatal envFetchFail ("https://acme.example") ("m")).2
    ("TEXT[" ++ "https://acme.example" ++ "]") [("/a")]
    ("\x7b\"links\": [\x7b\"type\": \"about page\", \"url\": \"https://acme.example/about\"\x7d, \x7b\"type\": \"careers page\", \"url\": \"https://acme.example/bad\"\x7d, \x7b\"type\": \"x\", \"url\": \"https://acme.example/after\"\x7d]\x7d")
    (Json.obj [(("links"), Json.arr
      [recJson (("about page"), ("https://acme.example/about")),
       recJson (("careers page"), ("https://acme.example/bad")),
       recJson (("x"), ("https://acme.example/after"))])])
    [(("about page"), ("https://acme.example/about"))] ("careers page")
    ("https://acme.example/bad") [(("x"), ("https://acme.example/after"))] ("boom")
    rfl rfl rfl rfl rfl
    (by
      intro r hr
      rw [List.mem_singleton] at hr
      subst hr
      exact ⟨("TEXT[" ++ "https://acme.example/about" ++ "]"), rfl⟩)
    rfl

/-- The aggregation loop when the records before some record have string
types and urls and their pages fetch successfully, and that record lacks the
type key: the loop raises KeyError there, having fetched only the earlier
pages, in order. -/
theorem appendLinkSections_no_type (env : Env) (pre : List (String × String))
    (badRec : Json) (rest : List Json)
    (hpre : ∀ r ∈ pre, ∃ t, env.contents r.2 = Except.ok t)
    (hb : badRec.getItem ("type") = none) :
    ∀ acc, appendLinkSections env (pre.map recJson ++ badRec :: rest) acc =
      ⟨Except.error ("KeyError: type"), pre.map fun r => Event.fetchContents r.2⟩ := by
  induction pre with
  | nil =>
    intro acc
    simp [appendLinkSections, ofOption, hb, M.throw]
  | cons r rest2 ih =>
    intro acc
    obtain ⟨t, ht⟩ := hpre r (List.mem_cons_self r rest2)
    have ih2 := ih (fun x hx => hpre x (List.mem_cons_of_mem r hx))
    simp [appendLinkSections, recJson_type, recJson_url, ofOption, Json.pystr,
      fetchWebsiteContents, ht, ih2]

/-- The aggregation loop when the records before some record process and
fetch successfully, and that record has a type but lacks the url key: the
loop raises KeyError there, having fetched only the earlier pages, in
order. -/
theorem appendLinkSections_no_url (env : Env) (pre : List (String × String))
    (badRec : Json) (rest : List Json) (ty : Json)
    (hpre : ∀ r ∈ pre, ∃ t, env.contents r.2 = Except.ok t)
    (hbt : badRec.getItem ("type") = some ty)
    (hbu : badRec.getItem ("url") = none) :
    ∀ acc, appendLinkSections env (pre.map recJson ++ badRec :: rest) acc =
      ⟨Except.error ("KeyError: url"), pre.map fun r => Event.fetchContents r.2⟩ := by
  induction pre with
  | nil =>
    intro acc
    simp [appendLinkSections, ofOption, hbt, hbu, M.throw]
  | cons r rest2 ih =>
    intro acc
    obtain ⟨t, ht⟩ := hpre r (List.mem_cons_self r rest2)
    have ih2 := ih (fun x hx => hpre x (List.mem_cons_of_mem r hx))
    simp [appendLinkSections, recJson_type, recJson_url, ofOption, Json.pystr,
      fetchWebsiteContents, ht, ih2]

/-- C10: no per-entry shape validation.  When the parsed links list contains
a record lacking the type key, or having a type but lacking the url key, at
any position after well-formed fetched records, select_relevant_links still
returns the parsed structure normally, and the aggregation then raises on
the missing key instead of skipping the entry: it fails, having fetched only
the landing page and the pages of the records before the malformed one. -/
theorem select_no_shape_validation (env : Env) (u m : String)
    (rawLinks : List String) (body landing : String) (sel badRec : Json)
    (pre : List (String × String)) (rest : List Json)
    (hcont : env.contents u = Except.ok landing)
    (hlinks : env.links u = Except.ok rawLinks)
    (hchat : env.chat m [⟨("system"), LINK_SYSTEM_PROMPT⟩,
      ⟨("user"), linksUserPromptHeader u ++ String.intercalate ("\n") rawLinks⟩] true =
      Except.ok body)
    (hparse : Json.parse body = some sel)
    (hsel : sel.getItem ("links") = some (Json.arr (pre.map recJson ++ badRec :: rest)))
    (hpre : ∀ r ∈ pre, ∃ t, env.contents r.2 = Except.ok t)
    (hbad : badRec.getItem ("type") = none ∨
      (∃ t, badRec.getItem ("type") = some t ∧ badRec.getItem ("url") = none)) :
    (select_relevant_links env u m).res = Except.ok sel ∧
    (∃ e, (fetch_page_and_all_relevant_links env u m).res = Except.error e) ∧
    tracePageFetchUrls (fetch_page_and_all_relevant_links env u m).trace =
      u :: pre.map Prod.snd := by
  have hselect := select_relevant_links_ok env u m rawLinks body sel
    (Json.arr (pre.map recJson ++ badRec :: rest))
    (pre.map recJson ++ badRec :: rest).length hlinks hchat hparse hsel rfl
  rcases hbad with hb | ⟨t, hbt, hbu⟩
  · have hloop := appendLinkSections_no_type env pre badRec rest hpre hb
    refine ⟨by simp [hselect], ⟨("KeyError: type"), ?_⟩, ?_⟩
    · simp [fetch_page_and_all_relevant_links, fetchWebsiteContents, hcont, hselect,
        ofOption, hsel, Json.pyElems, hloop]
    · simp [fetch_page_and_all_relevant_links, fetchWebsiteContents, hcont, hselect,
        ofOption, hsel, Json.pyElems, hloop, tracePageFetchUrls_map_fetch Prod.snd pre]
  · have hloop := appendLinkSections_no_url env pre badRec rest t hpre hbt hbu
    refine ⟨by simp [hselect], ⟨("KeyError: url"), ?_⟩, ?_⟩
    · simp [fetch_page_and_all_relevant_links, fetchWebsiteContents, hcont, hselect,
        ofOption, hsel, Json.pyElems, hloop]
    · simp [fetch_page_and_all_relevant_links, fetchWebsiteContents, hcont, hselect,
        ofOption, hsel, Json.pyElems, hloop, tracePageFetchUrls_map_fetch Prod.snd pre]

/-- Witness for C10: the second selected record holds only a url; selection
returns the structure unchanged, the first link's page is fetched, and the
aggregation fails on the missing type key without fetching the second
link's page or skipping it. -/
theorem select_no_shape_validation_witness :
    (select_relevant_links envBadSecond ("https://acme.example") ("m")).res =
      Except.ok (Json.obj [(("links"), Json.arr
        [recJson (("about page"), ("https://acme.example/about")),
         Json.obj [(("url"), Json.str ("https://acme.example/care"))]])]) ∧
    (∃ e, (fetch_page_and_all_relevant_links envBadSecond
      ("https://acme.example") ("m")).res = Except.error e) ∧
    tracePageFetchUrls (fetch_page_and_all_relevant_links envBadSecond
      ("https://acme.example") ("m")).trace =
      [("https://acme.example"), ("https://acme.example/about")] :=
  select_no_shape_validation envBadSecond ("https://acme.example") ("m")
    [("/about")]
    ("\x7b\"links\": [\x7b\"type\": \"about page\", \"url\": \"https://acme.example/about\"\x7d, \x7b\"url\": \"https://acme.example/care\"\x7d]\x7d")
    ("TEXT[" ++ "https://acme.example" ++ "]")
    (Json.obj [(("links"), Json.arr
      [recJson (("about page"), ("https://acme.example/about")),
       Json.obj [(("url"), Json.str ("https://acme.example/care"))]])])
    (Json.obj [(("url"), Json.str ("https://acme.example/care"))])
    [(("about page"), ("https://acme.example/about"))] []
    rfl rfl rfl rfl rfl
    (by
      intro r hr
      rw [List.mem_singleton] at hr
      subst hr
      exact ⟨("TEXT[" ++ "https://acme.example/about" ++ "]"), rfl⟩)
    (Or.inl rfl)

end Brochure
